import Mathlib

/-!
Verification of the Sphinx documentation configuration module `doc/conf.py`
of the jsbot repository.  The module consists of top-level assignments of
Python literals (strings, booleans, integers, lists, dicts) plus one hook
function `setup(app)` that registers a stylesheet with the application.

We embed each binding as a Lean definition carrying the literal value from
the source, collect the module's top-level bindings (in source order) as a
list of name/value pairs over a `PyValue` type mirroring the Python value
shapes that occur, and model the `setup` hook by explicit state passing
over an application object recorded as its list of received method calls.
-/

namespace JsbotDoc

/-- The shapes of Python values appearing in `doc/conf.py`: strings,
booleans, integers, lists, dicts (string-keyed mappings), and function
objects (identified by their name). -/
inductive PyValue where
  | str (s : String)
  | bool (b : Bool)
  | int (n : Int)
  | list (xs : List PyValue)
  | dict (entries : List (String × PyValue))
  | func (name : String)

/-- `project = 'Discord.js Bot Project'` -/
def project : String := "Discord.js Bot Project"

/-- `copyright = '2024, d'` -/
def copyright : String := "2024, d"

/-- `author = 'd'` -/
def author : String := "d"

/-- `html_title = f'{project}'` — an f-string interpolating `project` alone,
with no surrounding text; on a string, Python interpolation is `str`. -/
def html_title : String := toString project

/-- `extensions = [...]` — the list of extension module names, in source order. -/
def extensions : List String :=
  [ "myst_parser",
    "sphinx.ext.extlinks",
    "sphinx.ext.graphviz",
    "sphinx.ext.intersphinx",
    "sphinx.ext.todo",
    "sphinx_copybutton",
    "sphinx_design",
    "sphinx_examples",
    "sphinx_last_updated_by_git",
    "sphinx_sitemap",
    "sphinx_tabs.tabs",
    "sphinx_togglebutton",
    "sphinxext.opengraph" ]

/-- `togglebutton_hint = "点击展开"` -/
def togglebutton_hint : String := "点击展开"

/-- `togglebutton_hint_hide = "点击隐藏"` -/
def togglebutton_hint_hide : String := "点击隐藏"

/-- `templates_path = ['_templates']` -/
def templates_path : List String := ["_templates"]

/-- `exclude_patterns = ['README.md']` -/
def exclude_patterns : List String := ["README.md"]

/-- `language = 'zh_CN'` -/
def language : String := "zh_CN"

/-- `html_copy_source = False` -/
def html_copy_source : Bool := false

/-- `html_show_sourcelink = False` -/
def html_show_sourcelink : Bool := false

/-- `myst_enable_extensions = ["colon_fence", "deflist", "dollarmath"]` -/
def myst_enable_extensions : List String := ["colon_fence", "deflist", "dollarmath"]

/-- `myst_heading_anchors = 2` — an integer literal. -/
def myst_heading_anchors : Int := 2

/-- `myst_highlight_code_blocks = True` -/
def myst_highlight_code_blocks : Bool := true

/-- `html_theme = 'sphinx_book_theme'` -/
def html_theme : String := "sphinx_book_theme"

/-- The repository URL used in the theme options. -/
def repository_url : String := "https://github.com/ODYZZEIA-Discord-bot/jsbot_doc"

/-- `html_theme_options = {...}` — the nested theme-options mapping, with its
entries in source order. -/
def html_theme_options : List (String × PyValue) :=
  [ ("icon_links", .list
      [ .dict [ ("name", .str "Gitlab"),
                ("url", .str repository_url),
                ("icon", .str "fa-brands fa-gitlab") ] ]),
    ("repository_url", .str repository_url),
    ("search_as_you_type", .bool true),
    ("show_nav_level", .int 0),
    ("show_prev_next", .bool true),
    ("show_toc_level", .int 2),
    ("use_edit_page_button", .bool true),
    ("use_issues_button", .bool true),
    ("use_sidenotes", .bool true),
    ("use_source_button", .bool true) ]

/-- `html_static_path = ['_static', '_theme']` -/
def html_static_path : List String := ["_static", "_theme"]

/-- `html_search_language = 'zh'` -/
def html_search_language : String := "zh"

/-- `html_last_updated_fmt = '%Y-%m-%d %H:%M:%S'` -/
def html_last_updated_fmt : String := "%Y-%m-%d %H:%M:%S"

/-- `git_last_updated_timezone = 'Asia/Shanghai'` -/
def git_last_updated_timezone : String := "Asia/Shanghai"

/-- `html_baseurl = 'https://TODO/'` -/
def html_baseurl : String := "https://TODO/"

/-- `sitemap_filename = 'sitemapindex.xml'` -/
def sitemap_filename : String := "sitemapindex.xml"

/-- `sitemap_url_scheme = '{link}'` -/
def sitemap_url_scheme : String := "{link}"

/-- `html_extra_path = ['_static/robots.txt']` -/
def html_extra_path : List String := ["_static/robots.txt"]

/-- A method call received by the Sphinx application object. The only
method `conf.py` invokes is `add_css_file`. -/
inductive AppCall where
  | add_css_file (filename : String)

/-- The Sphinx application object, represented by the sequence of method
calls made on it. -/
structure SphinxApp where
  calls : List AppCall

/-- Invoking `app.add_css_file(filename)` appends that call to the
application's record of received calls. -/
def SphinxApp.add_css_file (app : SphinxApp) (filename : String) : SphinxApp :=
  { calls := app.calls ++ [AppCall.add_css_file filename] }

/-- The hook at the end of `conf.py`:
`def setup(app): app.add_css_file("theme.css")`.
It returns the updated application state and its Python return value,
which is `None` since the body has no return statement. -/
def setup (app : SphinxApp) : SphinxApp × Option PyValue :=
  (app.add_css_file "theme.css", none)

/-- A Python list literal whose elements are string literals. -/
def strList (xs : List String) : PyValue := .list (xs.map PyValue.str)

/-- The top-level bindings of the module `doc/conf.py`, in source order,
paired with their values. -/
def confBindings : List (String × PyValue) :=
  [ ("project", .str project),
    ("copyright", .str copyright),
    ("author", .str author),
    ("html_title", .str html_title),
    ("extensions", strList extensions),
    ("togglebutton_hint", .str togglebutton_hint),
    ("togglebutton_hint_hide", .str togglebutton_hint_hide),
    ("templates_path", strList templates_path),
    ("exclude_patterns", strList exclude_patterns),
    ("language", .str language),
    ("html_copy_source", .bool html_copy_source),
    ("html_show_sourcelink", .bool html_show_sourcelink),
    ("myst_enable_extensions", strList myst_enable_extensions),
    ("myst_heading_anchors", .int myst_heading_anchors),
    ("myst_highlight_code_blocks", .bool myst_highlight_code_blocks),
    ("html_theme", .str html_theme),
    ("html_theme_options", .dict html_theme_options),
    ("html_static_path", strList html_static_path),
    ("html_search_language", .str html_search_language),
    ("html_last_updated_fmt", .str html_last_updated_fmt),
    ("git_last_updated_timezone", .str git_last_updated_timezone),
    ("html_baseurl", .str html_baseurl),
    ("sitemap_filename", .str sitemap_filename),
    ("sitemap_url_scheme", .str sitemap_url_scheme),
    ("html_extra_path", strList html_extra_path),
    ("setup", .func "setup") ]

/-- Whether a value is a function object. -/
def PyValue.isFunc : PyValue → Bool
  | .func _ => true
  | _ => false

/-- Whether a value is a string. -/
def PyValue.isStr : PyValue → Bool
  | .str _ => true
  | _ => false

/-- Whether a value is one of the shapes named by the spec sentence on
configuration values: a string, a boolean, a sequence of strings, or a
mapping. -/
def shapeSpec : PyValue → Bool
  | .str _ => true
  | .bool _ => true
  | .list xs => xs.all PyValue.isStr
  | .dict _ => true
  | _ => false

/-- The previous shape class widened by integers. -/
def shapeSpecOrInt : PyValue → Bool
  | .int _ => true
  | v => shapeSpec v

/-- Whether `v` is a mapping one of whose entries is the string `s`. -/
def dictHoldsStr (v : PyValue) (s : String) : Bool :=
  match v with
  | .dict es => es.any fun e =>
      match e.2 with
      | .str t => t == s
      | _ => false
  | _ => false

/-- Claim C1: calling `setup` with an application object registers exactly one
stylesheet asset — it invokes `add_css_file` exactly once, with the single
argument `"theme.css"` — performs no other action, and returns `None`, for
every application object supplied. -/
theorem setup_registers_single_stylesheet (app : SphinxApp) :
    setup app = ({ calls := app.calls ++ [AppCall.add_css_file "theme.css"] }, none) :=
  rfl

/-- Witness for C1 at the application object with an empty call record. -/
theorem setup_registers_single_stylesheet_witness :
    setup ⟨[]⟩ = ({ calls := [AppCall.add_css_file "theme.css"] }, none) :=
  setup_registers_single_stylesheet ⟨[]⟩

/-- Claim C2: among the module's top-level bindings, `setup` is the only one
whose value is a function; every other binding is a non-function value. -/
theorem setup_only_function_binding :
    (confBindings.all fun p => p.2.isFunc == (p.1 == "setup")) = true ∧
    confBindings.lookup "setup" = some (.func "setup") :=
  ⟨by decide, rfl⟩

/-- Claim C3, counterexample: the claim that every configuration value is a
string, boolean, sequence of strings, or nested mapping fails on the binding
`myst_heading_anchors`, whose value is the integer `2`. -/
theorem conf_value_shapes_refuted :
    confBindings.lookup "myst_heading_anchors" = some (.int 2) ∧
    shapeSpec (.int 2) = false ∧
    (confBindings.all fun p => shapeSpec p.2) = false :=
  ⟨rfl, rfl, by decide⟩

/-- Claim C3, amended: every configuration value other than the `setup` hook
is a string, a boolean, an integer, an ordered sequence of strings, or a
nested mapping. -/
theorem conf_value_shapes_amended :
    (confBindings.all fun p => p.1 == "setup" || shapeSpecOrInt p.2) = true := by
  decide

/-- Claim C4, counterexample: the toggle-button hint texts are not declared
through a mapping-valued binding — no top-level mapping holds either hint
string — and they ARE separate flat top-level string bindings. -/
theorem togglebutton_mapping_refuted :
    (confBindings.all fun p =>
      !(dictHoldsStr p.2 "点击展开") && !(dictHoldsStr p.2 "点击隐藏")) = true ∧
    confBindings.lookup "togglebutton_hint" = some (.str "点击展开") ∧
    confBindings.lookup "togglebutton_hint_hide" = some (.str "点击隐藏") :=
  ⟨by decide, rfl, rfl⟩

/-- Claim C4, amended: the per-extension options for the toggle-button
extension (the expand hint and the hide hint) are declared as two separate
flat top-level string bindings, `togglebutton_hint` and
`togglebutton_hint_hide`, not as a single nested mapping. -/
theorem togglebutton_flat_string_bindings :
    ((confBindings.filter fun p =>
        p.1 == "togglebutton_hint" || p.1 == "togglebutton_hint_hide").map
      fun p => (p.1, p.2.isStr)) =
      [("togglebutton_hint", true), ("togglebutton_hint_hide", true)] ∧
    togglebutton_hint = "点击展开" ∧ togglebutton_hint_hide = "点击隐藏" :=
  ⟨by decide, rfl, rfl⟩

/-- Claim C5: `extensions` is an ordered sequence of exactly 13 extension
module name strings, beginning with `myst_parser` and ending with
`sphinxext.opengraph`, in the fixed source order, and its binding in the
module holds a list all of whose elements are strings. -/
theorem extensions_thirteen_ordered_strings :
    extensions.length = 13 ∧
    extensions.head? = some "myst_parser" ∧
    extensions.getLast? = some "sphinxext.opengraph" ∧
    extensions =
      [ "myst_parser", "sphinx.ext.extlinks", "sphinx.ext.graphviz",
        "sphinx.ext.intersphinx", "sphinx.ext.todo", "sphinx_copybutton",
        "sphinx_design", "sphinx_examples", "sphinx_last_updated_by_git",
        "sphinx_sitemap", "sphinx_tabs.tabs", "sphinx_togglebutton",
        "sphinxext.opengraph" ] ∧
    confBindings.lookup "extensions" = some (strList extensions) :=
  ⟨rfl, rfl, rfl, rfl, rfl⟩

/-- Claim C6: both boolean flags controlling source-link exposure are defined
and set to `False`: `html_copy_source` and `html_show_sourcelink`. -/
theorem source_links_disabled :
    html_copy_source = false ∧ html_show_sourcelink = false ∧
    confBindings.lookup "html_copy_source" = some (.bool false) ∧
    confBindings.lookup "html_show_sourcelink" = some (.bool false) :=
  ⟨rfl, rfl, rfl, rfl⟩

/-- Claim C7: `language` is the string `zh_CN` and the search language
`html_search_language` is the consistent string `zh`. -/
theorem language_tags_consistent :
    language = "zh_CN" ∧ html_search_language = "zh" ∧
    confBindings.lookup "language" = some (.str "zh_CN") ∧
    confBindings.lookup "html_search_language" = some (.str "zh") :=
  ⟨rfl, rfl, rfl, rfl⟩

/-- Claim C8: `sitemap_filename` equals `sitemapindex.xml` and
`sitemap_url_scheme` equals the template string `{link}`. -/
theorem sitemap_filename_and_scheme :
    sitemap_filename = "sitemapindex.xml" ∧
    sitemap_url_scheme = "{link}" ∧
    confBindings.lookup "sitemap_filename" = some (.str "sitemapindex.xml") ∧
    confBindings.lookup "sitemap_url_scheme" = some (.str "{link}") :=
  ⟨rfl, rfl, rfl, rfl⟩

/-- Claim C9: `html_title` is character-for-character equal to the project
metadata string, since it interpolates `project` alone into an f-string with
no surrounding text. -/
theorem html_title_equals_project :
    html_title = project ∧ html_title = "Discord.js Bot Project" :=
  ⟨rfl, rfl⟩

/-- Claim C10: `html_baseurl` is the unfinished placeholder literal
`https://TODO/`; it differs from the repository URL used in the theme
options; and every absolute URL built by appending a page link to it begins
with the placeholder. -/
theorem html_baseurl_placeholder :
    html_baseurl = "https://TODO/" ∧
    html_baseurl ≠ repository_url ∧
    html_theme_options.lookup "repository_url" = some (.str repository_url) ∧
    ∀ link : String, ∃ rest : String, html_baseurl ++ link = "https://TODO/" ++ rest :=
  ⟨rfl, by decide, rfl, fun link => ⟨link, rfl⟩⟩

/-- Witness for C10 at the concrete page link `index.html`. -/
theorem html_baseurl_placeholder_witness :
    ∃ rest : String, html_baseurl ++ "index.html" = "https://TODO/" ++ rest :=
  html_baseurl_placeholder.2.2.2 "index.html"

end JsbotDoc
